import Mathlib

/-!
Shallow embedding of the unification and cleaning core of the
BI-dashboard-analysis repository.

The embedded modules are:
* `extractors/dashboard_extractor.py` — `DashboardExtractor.extract_dashboard`,
  `_ensure_unified_schema`, `_fail_result`;
* `backend/tool_endpoints.py` — the `drill_up` endpoint body;
* `utils/data_cleaning.py` — `DataCleaner` (column normalization,
  deduplication, missing-value handling, value normalization and the
  `clean_unified_dashboard_data` front door).

Python dynamic values are modelled by the inductive type `Val`; Python
dictionaries are association lists in insertion order; a Python function that
can raise is `Except PyErr`-valued, and a `try/except` block is the
corresponding handler.  Machine floats of the source are modelled by `Rat`.
-/

namespace BIDash

/-- Model of a dynamic Python value (the `Any` of the source).  Dates stand in
for `pandas.Timestamp`; dictionaries are association lists that record
insertion order, as CPython dictionaries do. -/
inductive Val where
  | vNone : Val
  | vBool : Bool → Val
  | vNum : Rat → Val
  | vStr : String → Val
  | vDate : Nat → Nat → Nat → Val
  | vList : List Val → Val
  | vDict : List (String × Val) → Val
  | vFrame : List (String × List Val) → Val
deriving Repr

/-- Model of the Python exceptions that the embedded code can raise.  The
`configurationError` constructor models the `ConfigurationError` class named by
the specification; the source itself never instantiates it. -/
inductive PyErr where
  | valueError : String → PyErr
  | keyError : String → PyErr
  | typeError : String → PyErr
  | attributeError : String → PyErr
  | indexError : String → PyErr
  | configurationError : String → PyErr
deriving Repr, DecidableEq

/-- The message shown by `str(e)` on an exception. -/
def pyErrMsg : PyErr → String
  | .valueError m => m
  | .keyError m => m
  | .typeError m => m
  | .attributeError m => m
  | .indexError m => m
  | .configurationError m => m

/-- Dictionary read with default: `d.get(k, dflt)`. -/
def dGet : List (String × Val) → String → Val → Val
  | [], _, dflt => dflt
  | kv :: rest, k, dflt => if kv.1 == k then kv.2 else dGet rest k dflt

/-- Key membership test: `k in d`. -/
def hasKey : List (String × Val) → String → Bool
  | [], _ => false
  | kv :: rest, k => kv.1 == k || hasKey rest k

/-- The ordered key list of a dictionary. -/
def dKeys (kvs : List (String × Val)) : List String :=
  kvs.map (fun kv => kv.1)

/-- Dictionary write: `d[k] = v` overwrites in place when `k` is present and
appends at the end otherwise, as CPython insertion order prescribes. -/
def dSet : List (String × Val) → String → Val → List (String × Val)
  | [], k, v => [(k, v)]
  | kv :: rest, k, v => if kv.1 == k then (kv.1, v) :: rest else kv :: dSet rest k v

/-- Equality test of a dynamic value against a string literal, as in
`conn["status"] != "success"` or `comp_type in [...]`. -/
def valEqStr (v : Val) (s : String) : Bool :=
  match v with
  | .vStr t => t == s
  | _ => false

/-- Python truthiness of a value, as used by `drill_state or {}`. -/
def truthy : Val → Bool
  | .vNone => false
  | .vBool b => b
  | .vNum q => q != 0
  | .vStr s => s != ""
  | .vDate _ _ _ => true
  | .vList xs => !xs.isEmpty
  | .vDict kvs => !kvs.isEmpty
  | .vFrame _ => true

/-- The expression `a or b` on values. -/
def pyOr (a b : Val) : Val := if truthy a then a else b

/-- Attribute-style read `v.get(k, dflt)`: only dictionaries carry `get`. -/
def pyGet (v : Val) (k : String) (dflt : Val) : Except PyErr Val :=
  match v with
  | .vDict kvs => .ok (dGet kvs k dflt)
  | _ => .error (.attributeError "object has no attribute get")

/-- Subscript read `v[k]`, raising `KeyError` / `TypeError` as CPython does. -/
def pySubscript (v : Val) (k : String) : Except PyErr Val :=
  match v with
  | .vDict kvs =>
      match kvs.find? (fun kv => kv.1 == k) with
      | some kv => .ok kv.2
      | none => .error (.keyError k)
  | _ => .error (.typeError "object is not subscriptable")

/-- Iteration `for x in v`: lists yield elements, dictionaries yield their
keys, strings yield their characters; other values raise `TypeError`. -/
def pyIter (v : Val) : Except PyErr (List Val) :=
  match v with
  | .vList xs => .ok xs
  | .vDict kvs => .ok (kvs.map (fun kv => Val.vStr kv.1))
  | .vStr s => .ok (s.data.map (fun c => Val.vStr c.toString))
  | _ => .error (.typeError "object is not iterable")

/-! ### `DashboardExtractor` (`extractors/dashboard_extractor.py`) -/

/-- `DashboardExtractor._fail_result`: the failure-shaped dictionary literal.
It carries eleven keys; notably there is no `drill_state` entry. -/
def failResult (source authType : String) (error : Val) : List (String × Val) :=
  [("status", .vStr "failed"),
   ("source", .vStr source),
   ("auth_type", .vStr authType),
   ("tables", .vList []),
   ("kpis", .vList []),
   ("filters", .vList []),
   ("visuals", .vList []),
   ("layout", .vDict []),
   ("components", .vList []),
   ("html_text", .vStr ""),
   ("error", error)]

/-- The per-component loop body of `_ensure_unified_schema`: a dictionary
component without a `highlights` key gets `comp["highlights"] = []`; every
other value passes through unchanged. -/
def addHighlights (comp : Val) : Val :=
  match comp with
  | .vDict kvs => if hasKey kvs "highlights" then .vDict kvs else .vDict (dSet kvs "highlights" (.vList []))
  | other => other

/-- `DashboardExtractor._ensure_unified_schema`.  `result.get` raises
`AttributeError` on a non-dictionary adapter result, and the `for comp in
components` loop iterates with Python semantics (keys, for a mapping). -/
def ensureUnifiedSchema (result : Val) (source authType : String) (drillState : Val) :
    Except PyErr (List (String × Val)) :=
  match result with
  | .vDict kvs => do
      let comps ← pyIter (dGet kvs "components" (.vList []))
      let updated := comps.map addHighlights
      .ok [("status", dGet kvs "status" (.vStr "success")),
           ("source", .vStr source),
           ("auth_type", .vStr authType),
           ("tables", dGet kvs "tables" (.vList [])),
           ("kpis", dGet kvs "kpis" (.vList [])),
           ("filters", dGet kvs "filters" (.vList [])),
           ("visuals", dGet kvs "visuals" (.vList [])),
           ("layout", dGet kvs "layout" (.vDict [])),
           ("components", .vList updated),
           ("html_text", dGet kvs "html_text" (.vStr "")),
           ("drill_state", dGet kvs "drill_state" (pyOr drillState (.vDict []))),
           ("error", dGet kvs "error" .vNone)]
  | _ => .error (.attributeError "object has no attribute get")

/-- The four source-and-auth-specific adapter methods that
`extract_dashboard` dispatches to.  They perform network and OCR work, so the
embedding quantifies over their behaviours; each receives exactly the
arguments the source passes it and may raise. -/
structure Extractors where
  pbPrivate : Val → Val → Val → Val → Except PyErr Val
  pbPublic : Val → Val → Val → Except PyErr Val
  tbPrivate : Val → Val → Val → Except PyErr Val
  tbPublic : Val → Val → Val → Except PyErr Val

/-- The source/auth dispatch of `extract_dashboard` (steps computing
`result`), which stays `None` on an unsupported combination. -/
def dispatchExtract (E : Extractors) (conn : Val) (source authType : String)
    (kwargs : List (String × Val)) (drillState : Val) :
    Except PyErr (Option Val) :=
  if source == "powerbi" then
    if authType == "private" then do
      let client ← pySubscript conn "client"
      let md ← pySubscript conn "metadata"
      let wid ← pyGet md "workspace_id" .vNone
      let r ← E.pbPrivate client wid (dGet kwargs "report_id" .vNone) drillState
      pure (some r)
    else if authType == "public" then do
      let r ← E.pbPublic (dGet kwargs "embed_url" .vNone)
                (dGet kwargs "use_ocr" (.vBool true)) drillState
      pure (some r)
    else pure none
  else if source == "tableau" then
    if authType == "private" then do
      let client ← pySubscript conn "client"
      let r ← E.tbPrivate client (dGet kwargs "view_id" .vNone) drillState
      pure (some r)
    else if authType == "public" then do
      let r ← E.tbPublic (dGet kwargs "public_url" .vNone)
                (dGet kwargs "use_ocr" (.vBool true)) drillState
      pure (some r)
    else pure none
  else pure none

/-- The `try` body of `DashboardExtractor.extract_dashboard`: connect, branch
on `(source, auth_type)`, and unify or fail. -/
def extractDashboardBody
    (connect : String → String → List (String × Val) → Except PyErr Val)
    (E : Extractors) (source authType : String)
    (kwargs : List (String × Val)) (drillState : Val) :
    Except PyErr (List (String × Val)) := do
  let conn ← connect source authType kwargs
  let st ← pySubscript conn "status"
  if !valEqStr st "success" then
    let e ← pyGet conn "error" .vNone
    return failResult source authType e
  else
    dispatchExtract E conn source authType kwargs drillState >>= fun result =>
      match result with
      | some r => ensureUnifiedSchema r source authType drillState
      | none => return failResult source authType (.vStr "Unsupported source/auth_type combination.")

/-- `DashboardExtractor.extract_dashboard`: the `try` body wrapped in the
catch-all `except Exception as e` handler, which converts any exception into
`_fail_result(source, auth_type, str(e))`.  The result stays `Except`-valued
so that non-propagation of exceptions is a provable statement. -/
def extractDashboard
    (connect : String → String → List (String × Val) → Except PyErr Val)
    (E : Extractors) (source authType : String)
    (kwargs : List (String × Val)) (drillState : Val) :
    Except PyErr (List (String × Val)) :=
  match extractDashboardBody connect E source authType kwargs drillState with
  | .ok d => .ok d
  | .error e => .ok (failResult source authType (.vStr (pyErrMsg e)))

/-! ### The `drill_up` endpoint (`backend/tool_endpoints.py`) -/

/-- Values view of a dictionary: `d.values()`; any other receiver raises
`AttributeError`, as `list.values()` does in CPython. -/
def pyValues (v : Val) : Except PyErr (List (String × Val)) :=
  match v with
  | .vDict kvs => .ok kvs
  | _ => .error (.attributeError "object has no attribute values")

/-- The `for visual in visuals.values(): ... else: ...` loop of `drill_up`.
On the first visual whose `name` equals `visual_name` it ensures a
`drill_state` entry (creating `[]` when absent) and then executes
`visual["drill_state"].pop()` — which raises `IndexError` when that list is
empty.  Returns the updated entries plus the new drill list when a visual
matched, and `none` when the loop fell through to its `else` arm. -/
def drillUpLoop (entries : List (String × Val)) (visualName : String) :
    Except PyErr (Option (List (String × Val) × Val)) :=
  match entries with
  | [] => .ok none
  | (k, visual) :: rest => do
      let nm ← pyGet visual "name" .vNone
      if valEqStr nm visualName then
        match visual with
        | .vDict kvs =>
            let kvs1 := if hasKey kvs "drill_state" then kvs else dSet kvs "drill_state" (.vList [])
            match dGet kvs1 "drill_state" .vNone with
            | .vList [] => .error (.indexError "pop from empty list")
            | .vList xs =>
                let newDs := Val.vList xs.dropLast
                .ok (some ((k, .vDict (dSet kvs1 "drill_state" newDs)) :: rest, newDs))
            | _ => .error (.typeError "drill_state does not support pop")
        | _ => .error (.typeError "object is not a dict")
      else
        match ← drillUpLoop rest visualName with
        | none => .ok none
        | some (rest2, newDs) => .ok (some ((k, visual) :: rest2, newDs))

/-- Body of the `drill_up` endpoint after the initial extraction call.
`dashboard` is the snapshot returned by that call and `reExtract` is the
re-extraction closure `extract_dashboard(source, auth_type, drill_state=…)`.
Absent visuals yield the `status: failed` payload; a matched visual goes
through the pop-and-re-extract path. -/
def drillUp (reExtract : Val → Except PyErr (List (String × Val)))
    (dashboard : List (String × Val)) (visualName : String) :
    Except PyErr (List (String × Val)) := do
  let visuals := dGet dashboard "visuals" (.vDict [])
  let entries ← pyValues visuals
  match ← drillUpLoop entries visualName with
  | none =>
      .ok [("status", .vStr "failed"),
           ("error", .vStr ("Visual " ++ visualName ++ " not found."))]
  | some (entries2, newDs) =>
      let _dashboard2 := dSet dashboard "visuals" (.vDict entries2)
      let d2 ← reExtract (.vDict [(visualName, newDs)])
      .ok [("status", .vStr "success"), ("dashboard", .vDict d2)]

/-! ### `DataCleaner` string utilities (`utils/data_cleaning.py`) -/

/-- ASCII lowercasing of one character, the effect of `str.lower()` on the
ASCII inputs this pipeline handles. -/
def asciiLower (c : Char) : Char :=
  if 'A' ≤ c ∧ c ≤ 'Z' then Char.ofNat (c.toNat + 32) else c

/-- Whitespace as recognised by `str.strip()` (ASCII subset). -/
def isWsChar (c : Char) : Bool :=
  c == ' ' || c == '\t' || c == '\n' || c == '\r'

/-- Removes leading and trailing characters satisfying `p`. -/
def stripEnds (p : Char → Bool) (l : List Char) : List Char :=
  ((l.dropWhile p).reverse.dropWhile p).reverse

/-- `str.strip()` on a character list. -/
def pyStrip (l : List Char) : List Char := stripEnds isWsChar l

/-- Characters the slug regex `[^0-9a-zA-Z_]+` keeps unchanged. -/
def isKeepChar (c : Char) : Bool :=
  ('0' ≤ c && c ≤ '9') || ('a' ≤ c && c ≤ 'z') || ('A' ≤ c && c ≤ 'Z') || c == '_'

/-- Collapses each run of consecutive underscores to a single underscore,
the effect of `re.sub(r"_+", "_", c)`. -/
def collapseU : List Char → List Char
  | [] => []
  | [c] => [c]
  | a :: b :: rest =>
      if a == '_' && b == '_' then collapseU (b :: rest)
      else a :: collapseU (b :: rest)

/-- The slugification applied to one column name in
`DataCleaner.normalize_column_names`: strip, lowercase, replace runs of
non-alphanumeric/underscore characters with `_` (replacing each such
character by `_` and collapsing runs is equivalent to replacing each run),
collapse underscores and strip edge underscores. -/
def slugify (s : String) : String :=
  String.mk (stripEnds (fun c => c == '_')
    (collapseU ((pyStrip s.data).map
      (fun c => let d := asciiLower c; if isKeepChar d then d else '_'))))

/-- One increment of the `collections.Counter` used by
`_deduplicate_columns` (counter keys are unique, so updating the first
matching entry is the dictionary update). -/
def bumpCount : List (String × Nat) → String → List (String × Nat)
  | [], k => [(k, 1)]
  | p :: rest, k =>
      if p.1 == k then (p.1, p.2 + 1) :: rest else p :: bumpCount rest k

/-- Counter lookup (`counts[col]`, defaulting to zero). -/
def getCount : List (String × Nat) → String → Nat
  | [], _ => 0
  | p :: rest, k => if p.1 == k then p.2 else getCount rest k

/-- The loop of `DataCleaner._deduplicate_columns` with the running counter
made explicit. -/
def dedupAux (c : List (String × Nat)) : List String → List String
  | [] => []
  | col :: rest =>
      let c2 := bumpCount c col
      let n := getCount c2 col
      (if n > 1 then col ++ "_" ++ toString n else col) :: dedupAux c2 rest

/-- `DataCleaner._deduplicate_columns`: repeated names receive `_2`, `_3`, …
suffixes in order of appearance. -/
def deduplicateColumns (cols : List String) : List String := dedupAux [] cols

/-- A semantic column-alias map: standardized name paired with its aliases,
as in the `semantic_map` constructor argument. -/
abbrev SemanticMap := List (String × List String)

/-- The default `semantic_map` of the `DataCleaner` constructor. -/
def defaultSemanticMap : SemanticMap :=
  [("revenue_usd", ["revenue_$", "sales_usd", "total_sales"]),
   ("date", ["order_date", "created_on", "timestamp"])]

/-- The default `synonym_map` of the `DataCleaner` constructor. -/
def defaultSynonymMap : List (String × String) :=
  [("yes", "affirmative"), ("no", "negative"), ("n/a", "not_applicable")]

/-- Lookup in the reversed semantic map
`{alias: std for std, aliases in semantic_map.items() for alias in aliases}`;
on duplicate alias keys the comprehension keeps the last binding. -/
def aliasLookup (sm : SemanticMap) (c : String) : String :=
  match ((sm.map (fun p => p.2.map (fun a => (a, p.1)))).flatten.reverse.find?
      (fun q => q.1 == c)) with
  | some q => q.2
  | none => c

/-- `DataCleaner.normalize_column_names` on the header list: slugify each
name, deduplicate, then apply the semantic alias mapping. -/
def normalizeColumnNames (sm : SemanticMap) (names : List String) : List String :=
  (deduplicateColumns (names.map slugify)).map (aliasLookup sm)

/-! ### DataFrame model and the `DataCleaner` pipeline steps -/

mutual

/-- Structural equality of dynamic values, the `==` used when counting value
occurrences (pandas `mode`). -/
def Val.beq : Val → Val → Bool
  | .vNone, .vNone => true
  | .vBool a, .vBool b => a == b
  | .vNum a, .vNum b => a == b
  | .vStr a, .vStr b => a == b
  | .vDate y1 m1 d1, .vDate y2 m2 d2 => y1 == y2 && m1 == m2 && d1 == d2
  | .vList xs, .vList ys => beqValList xs ys
  | .vDict xs, .vDict ys => beqValDict xs ys
  | .vFrame xs, .vFrame ys => beqValFrame xs ys
  | _, _ => false

/-- Elementwise equality of value lists. -/
def beqValList : List Val → List Val → Bool
  | [], [] => true
  | a :: as, b :: bs => Val.beq a b && beqValList as bs
  | _, _ => false

/-- Elementwise equality of keyed value lists. -/
def beqValDict : List (String × Val) → List (String × Val) → Bool
  | [], [] => true
  | (k1, v1) :: as, (k2, v2) :: bs => k1 == k2 && Val.beq v1 v2 && beqValDict as bs
  | _, _ => false

/-- Elementwise equality of column lists. -/
def beqValFrame : List (String × List Val) → List (String × List Val) → Bool
  | [], [] => true
  | (k1, v1) :: as, (k2, v2) :: bs => k1 == k2 && beqValList v1 v2 && beqValFrame as bs
  | _, _ => false

end

/-- A pandas DataFrame, modelled as its labelled columns in order; a cell
holding `vNone` models `NaN`/`None`.  Duplicate labels are allowed, as in
pandas; all embedded operations work positionally over the column list. -/
structure DataFrame where
  cols : List (String × List Val)
deriving Repr

/-- The cell is missing (`NaN`). -/
def cellIsNull (c : Val) : Bool :=
  match c with
  | .vNone => true
  | _ => false

/-- The cell is numeric. -/
def cellIsNum (c : Val) : Bool :=
  match c with
  | .vNum _ => true
  | _ => false

/-- The cell is a datetime. -/
def cellIsDate (c : Val) : Bool :=
  match c with
  | .vDate _ _ _ => true
  | _ => false

/-- The column has a numeric dtype: every non-null cell is numeric (an
all-null column is a float column, hence numeric). -/
def colNumeric (cells : List Val) : Bool :=
  cells.all (fun c => cellIsNull c || cellIsNum c)

/-- The column has a datetime dtype. -/
def colDate (cells : List Val) : Bool :=
  cells.any cellIsDate && cells.all (fun c => cellIsNull c || cellIsDate c)

/-- The column has the object dtype (what `select_dtypes(["object","string"])`
selects, and on which `pd.api.types.is_string_dtype` is true). -/
def colObject (cells : List Val) : Bool :=
  !colNumeric cells && !colDate cells

/-- Decimal digits of a natural number rendering. -/
def natFromDigits (ds : List Char) : Nat :=
  ds.foldl (fun n c => n * 10 + (c.toNat - 48)) 0

/-- Splits off the maximal leading digit run. -/
def splitDigits (l : List Char) : List Char × List Char :=
  (l.takeWhile Char.isDigit, l.dropWhile Char.isDigit)

/-- Rendering of a number by `str` / `astype(str)`.  Integral floats render
with a trailing `.0`; the exact decimal rendering of non-integral floats is
not needed by the pipeline and is modelled as a fraction. -/
def ratStr (q : Rat) : String :=
  if q.den = 1 then toString q.num ++ ".0"
  else toString q.num ++ "/" ++ toString q.den

/-- Rendering of a `pandas.Timestamp` by `astype(str)`. -/
def dateStr (y m d : Nat) : String :=
  toString y ++ "-" ++ toString m ++ "-" ++ toString d

/-- The effect of `Series.astype(str)` on one cell; notably a missing value
becomes the string `"nan"`.  Renderings of container objects are not needed
by the pipeline and are modelled by fixed tags. -/
def cellStr (c : Val) : String :=
  match c with
  | .vNone => "nan"
  | .vBool b => if b then "True" else "False"
  | .vNum q => ratStr q
  | .vStr s => s
  | .vDate y m d => dateStr y m d
  | .vList _ => "list"
  | .vDict _ => "dict"
  | .vFrame _ => "frame"

/-- Float parsing as used by `pd.to_numeric(..., errors="coerce")` on the
strings this pipeline produces: optional sign, then digits with an optional
fractional part, with surrounding whitespace allowed.  (`"nan"` behaves as a
parse failure here, which coincides with coercion to a missing value.) -/
def parseRatNum (s : String) : Option Rat :=
  let l := pyStrip s.data
  let (sign, l1) : Int × List Char :=
    match l with
    | '-' :: r => (-1, r)
    | '+' :: r => (1, r)
    | _ => (1, l)
  let (ip, r1) := splitDigits l1
  match r1 with
  | [] =>
      if ip.isEmpty then none
      else some ((sign * (natFromDigits ip : Int) : Int) : Rat)
  | '.' :: r2 =>
      let (fp, r3) := splitDigits r2
      if r3.isEmpty ∧ ¬(ip.isEmpty ∧ fp.isEmpty) then
        some ((sign : Rat) *
          ((natFromDigits ip : Rat) + (natFromDigits fp : Rat) / ((10 : Rat) ^ fp.length)))
      else none
  | _ => none

/-- Date parsing as used by `pd.to_datetime(..., errors="coerce")`, restricted
to the ISO-like shapes this pipeline recognises: four year digits, one or two
month digits, one or two day digits, with basic range validation. -/
def parseIsoDate (s : String) : Option (Nat × Nat × Nat) :=
  let (yd, r1) := splitDigits (pyStrip s.data)
  match r1 with
  | '-' :: r2 =>
      let (md, r3) := splitDigits r2
      (match r3 with
       | '-' :: r4 =>
           let (dd, r5) := splitDigits r4
           if yd.length == 4 && (md.length == 1 || md.length == 2) &&
              (dd.length == 1 || dd.length == 2) && r5.isEmpty then
             let m := natFromDigits md
             let d := natFromDigits dd
             if 1 ≤ m && m ≤ 12 && 1 ≤ d && d ≤ 31 then
               some (natFromDigits yd, m, d)
             else none
           else none
       | _ => none)
  | _ => none

/-- The anchored prefix test `Series.str.match(r"\d{4}-\d{1,2}-\d{1,2}")`. -/
def matchesDateStart (s : String) : Bool :=
  let (yd, r1) := splitDigits s.data
  match r1 with
  | '-' :: r2 =>
      let (md, r3) := splitDigits r2
      (match r3 with
       | '-' :: r4 =>
           let (dd, _) := splitDigits r4
           yd.length == 4 && (md.length == 1 || md.length == 2) && dd.length ≥ 1
       | _ => false)
  | _ => false

/-- The full match `Series.str.match(r"^-?\d+(\.\d+)?$")`. -/
def matchesNumFull (s : String) : Bool :=
  let l := match s.data with
           | '-' :: r => r
           | other => other
  let (ip, r1) := splitDigits l
  match r1 with
  | [] => !ip.isEmpty
  | '.' :: r2 =>
      let (fp, r3) := splitDigits r2
      !ip.isEmpty && !fp.isEmpty && r3.isEmpty
  | _ => false

/-- One-cell coercion of `pd.to_datetime(..., errors="coerce")`.  Epoch
reinterpretation of numeric cells is not modelled; such cells coerce to
missing. -/
def toDatetimeCell (c : Val) : Val :=
  match c with
  | .vStr s =>
      (match parseIsoDate s with
       | some (y, m, d) => .vDate y m d
       | none => .vNone)
  | .vDate y m d => .vDate y m d
  | _ => .vNone

/-- One-cell coercion of `pd.to_numeric(..., errors="coerce")`. -/
def toNumericCell (c : Val) : Val :=
  match c with
  | .vStr s =>
      (match parseRatNum s with
       | some q => .vNum q
       | none => .vNone)
  | .vNum q => .vNum q
  | .vBool b => .vNum (if b then 1 else 0)
  | _ => .vNone

/-- The per-column body of `DataCleaner.convert_data_types`: numeric and
datetime columns are skipped; on a string/object column, an over-80% date
match converts to datetime, an over-80% numeric match converts to numeric,
and otherwise the column is cast to strings (turning nulls into `"nan"`). -/
def convertColumn (cells : List Val) : List Val :=
  if colNumeric cells || colDate cells then cells
  else
    let nonNull := cells.filter (fun c => !cellIsNull c)
    if nonNull.isEmpty then cells
    else
      let strs := nonNull.map cellStr
      if 5 * (strs.countP matchesDateStart) > 4 * strs.length then
        cells.map toDatetimeCell
      else if 5 * (strs.countP matchesNumFull) > 4 * strs.length then
        cells.map toNumericCell
      else cells.map (fun c => Val.vStr (cellStr c))

/-- `DataCleaner.convert_data_types`. -/
def convertDataTypes (df : DataFrame) : DataFrame :=
  ⟨df.cols.map (fun p => (p.1, convertColumn p.2))⟩

/-- Number of rows (columns are rectangular in the embedded frames). -/
def colLen (df : DataFrame) : Nat :=
  match df.cols with
  | [] => 0
  | c :: _ => c.2.length

/-- Row `i` contains no null in any column. -/
def keepRow (df : DataFrame) (i : Nat) : Bool :=
  df.cols.all (fun p =>
    match p.2.get? i with
    | some c => !cellIsNull c
    | none => true)

/-- `df.dropna()`: drops every row containing a null. -/
def dropna (df : DataFrame) : DataFrame :=
  let idx := (List.range (colLen df)).filter (keepRow df)
  ⟨df.cols.map (fun p => (p.1, idx.filterMap (fun i => p.2.get? i)))⟩

/-- Most frequent non-null value of a column (`df[col].mode()[0]`); the tie
order of pandas `mode` is modelled as first occurrence. -/
def modeVal (cells : List Val) : Option Val :=
  let vals := cells.filter (fun c => !cellIsNull c)
  let counted := vals.map (fun v => (v, vals.countP (Val.beq v)))
  let m := (counted.map (fun p => p.2)).foldl max 0
  (counted.find? (fun p => p.2 == m)).map (fun p => p.1)

/-- The `fill_mean` strategy body: numeric columns are filled with their mean
(no-op when the column has no numeric value), object columns with their
mode. -/
def fillMean (df : DataFrame) : DataFrame :=
  ⟨df.cols.map (fun p =>
    if colNumeric p.2 then
      let nums := p.2.filterMap (fun c =>
        match c with
        | .vNum q => some q
        | _ => none)
      if nums.isEmpty then p
      else
        let mean := nums.foldl (· + ·) 0 / (nums.length : Rat)
        (p.1, p.2.map (fun c => if cellIsNull c then Val.vNum mean else c))
    else if colObject p.2 then
      match modeVal p.2 with
      | none => p
      | some m => (p.1, p.2.map (fun c => if cellIsNull c then m else c))
    else p)⟩

/-- The `fill_constant` strategy body: `df.fillna(self.fill_constant)`. -/
def fillConst (k : Val) (df : DataFrame) : DataFrame :=
  ⟨df.cols.map (fun p => (p.1, p.2.map (fun c => if cellIsNull c then k else c)))⟩

/-- Configuration of a `DataCleaner` instance. -/
structure CleanerCfg where
  semanticMap : SemanticMap
  synonymMap : List (String × String)
  missingValueStrategy : String
  fillConstant : Val

/-- The constructor defaults of `DataCleaner`. -/
def defaultCfg : CleanerCfg :=
  ⟨defaultSemanticMap, defaultSynonymMap, "drop", .vNum 0⟩

/-- `DataCleaner.handle_missing_values`: dispatch on the configured strategy,
raising `ValueError` on an unknown strategy name. -/
def handleMissingValues (cfg : CleanerCfg) (df : DataFrame) :
    Except PyErr DataFrame :=
  if cfg.missingValueStrategy == "drop" then .ok (dropna df)
  else if cfg.missingValueStrategy == "fill_mean" then .ok (fillMean df)
  else if cfg.missingValueStrategy == "fill_constant" then .ok (fillConst cfg.fillConstant df)
  else .error (.valueError ("Unsupported missing value strategy: " ++ cfg.missingValueStrategy))

/-- `str.strip()` on a string. -/
def stripStr (s : String) : String := String.mk (pyStrip s.data)

/-- Removal of currency symbols, thousands separators and percent signs:
`str.replace(r"[\$,]", "")` followed by `str.replace("%", "")`. -/
def removeCurrencyPct (s : String) : String :=
  String.mk (s.data.filter (fun c => !(c == '$' || c == ',' || c == '%')))

/-- The percent-sign membership test `str.contains("%")`. -/
def containsPct (s : String) : Bool := s.data.any (fun c => c == '%')

/-- The per-column body of `DataCleaner.normalize_values`: cast to stripped
strings, flag the column as percentages when more than half the values
contain a `%`, strip currency/comma/percent characters, coerce to numbers
(dividing by 100 for a percentage column), and fall back to the original
cell wherever coercion fails. -/
def normalizeValuesCol (cells : List Val) : List Val :=
  let strs := cells.map (fun c => stripStr (cellStr c))
  let isPct := 2 * (strs.countP containsPct) > strs.length
  (cells.zip strs).map (fun p =>
    match parseRatNum (removeCurrencyPct p.2) with
    | some q => Val.vNum (if isPct then q / 100 else q)
    | none => p.1)

/-- `DataCleaner.normalize_values`, applied to the object/string columns. -/
def normalizeValues (df : DataFrame) : DataFrame :=
  ⟨df.cols.map (fun p => if colObject p.2 then (p.1, normalizeValuesCol p.2) else p)⟩

/-- The per-cell body of `DataCleaner.standardize_categories`: the `.str`
accessor lowercases and strips string cells and turns every non-string cell
(missing or otherwise) into a missing value, after which `Series.replace`
applies the synonym map. -/
def stdCatCell (syn : List (String × String)) (c : Val) : Val :=
  match c with
  | .vStr s =>
      let t := stripStr (String.mk (s.data.map asciiLower))
      .vStr (match syn.reverse.find? (fun q => q.1 == t) with
             | some q => q.2
             | none => t)
  | _ => .vNone

/-- `DataCleaner.standardize_categories` on the object columns. -/
def standardizeCategories (cfg : CleanerCfg) (df : DataFrame) : DataFrame :=
  ⟨df.cols.map (fun p => if colObject p.2 then (p.1, p.2.map (stdCatCell cfg.synonymMap)) else p)⟩

/-- The per-column body of `DataCleaner.parse_dates`: re-parse to datetime
and keep the parsed column when at least one entry parsed. -/
def parseDatesCol (cells : List Val) : List Val :=
  let parsed := cells.map toDatetimeCell
  if parsed.any (fun c => !cellIsNull c) then parsed else cells

/-- `DataCleaner.parse_dates` on the object columns. -/
def parseDates (df : DataFrame) : DataFrame :=
  ⟨df.cols.map (fun p => if colObject p.2 then (p.1, parseDatesCol p.2) else p)⟩

/-- `DataCleaner.normalize_column_names` on a DataFrame. -/
def dfNormalizeColumnNames (cfg : CleanerCfg) (df : DataFrame) : DataFrame :=
  ⟨(normalizeColumnNames cfg.semanticMap (df.cols.map (fun p => p.1))).zip
    (df.cols.map (fun p => p.2))⟩

/-- `DataCleaner.clean`: the full pipeline in its fixed order. -/
def cleanDF (cfg : CleanerCfg) (df : DataFrame) : Except PyErr DataFrame := do
  let df1 := dfNormalizeColumnNames cfg df
  let df2 := convertDataTypes df1
  let df3 ← handleMissingValues cfg df2
  let df4 := normalizeValues df3
  let df5 := standardizeCategories cfg df4
  .ok (parseDates df5)

/-! ### `DataCleaner.clean_unified_dashboard_data` -/

/-- Column label of a header entry; non-string labels are modelled by their
rendering (the source would fail on them later, inside slugification). -/
def valToName (v : Val) : String :=
  match v with
  | .vStr s => s
  | other => cellStr other

/-- Key deletion `d.pop(k, …)` restricted to its removal effect. -/
def dErase (kvs : List (String × Val)) (k : String) : List (String × Val) :=
  kvs.filter (fun kv => !(kv.1 == k))

/-- `pd.DataFrame(rows, columns=headers)` for a non-empty header list and
non-empty row list: rows must be sequences, their maximal width must equal
the header count (otherwise pandas raises `ValueError`), and shorter rows are
padded with missing values. -/
def mkDFWithCols (headers rows : Val) : Except PyErr DataFrame := do
  let headersL ← pyIter headers
  let names := headersL.map valToName
  let rowsL ← pyIter rows
  let rowCells ← rowsL.mapM (fun r =>
    match r with
    | .vList xs => Except.ok xs
    | _ => Except.error (PyErr.typeError "row is not a sequence"))
  let width := rowCells.foldl (fun m r => max m r.length) 0
  if width == names.length then
    .ok ⟨(List.range names.length).map (fun j =>
      (names.getD j "", rowCells.map (fun r => (r.get? j).getD .vNone)))⟩
  else
    .error (.valueError "columns passed, passed data had a different width")

/-- `pd.DataFrame(rows)` without explicit columns: an empty argument gives an
empty frame; a list of sequences gets positional labels (modelled by their
decimal rendering); a list of mappings takes the key union in first-seen
order; a list of scalars becomes a single column. -/
def mkDFNoCols (rows : Val) : Except PyErr DataFrame := do
  let rowsL ← pyIter rows
  if rowsL.isEmpty then
    .ok ⟨[]⟩
  else if rowsL.all (fun r =>
      match r with
      | .vList _ => true
      | _ => false) then
    let rowCells := rowsL.map (fun r =>
      match r with
      | .vList xs => xs
      | _ => [])
    let width := rowCells.foldl (fun m r => max m r.length) 0
    .ok ⟨(List.range width).map (fun j =>
      (toString j, rowCells.map (fun r => (r.get? j).getD .vNone)))⟩
  else if rowsL.all (fun r =>
      match r with
      | .vDict _ => true
      | _ => false) then
    let rowKvs := rowsL.map (fun r =>
      match r with
      | .vDict kvs => kvs
      | _ => [])
    let keys := rowKvs.foldl (fun acc kvs =>
      kvs.foldl (fun a kv => if a.contains kv.1 then a else a ++ [kv.1]) acc) []
    .ok ⟨keys.map (fun k => (k, rowKvs.map (fun kvs => dGet kvs k .vNone)))⟩
  else if rowsL.all (fun r =>
      match r with
      | .vList _ => false
      | .vDict _ => false
      | _ => true) then
    .ok ⟨[("0", rowsL)]⟩
  else
    .error (.typeError "mixed row shapes")

/-- `pd.DataFrame([record])` for a single mapping: its keys become the
columns of a one-row frame. -/
def mkDFFromDict (kvs : List (String × Val)) : DataFrame :=
  ⟨kvs.map (fun kv => (kv.1, [kv.2]))⟩

/-- `df.to_dict(orient="records")[0]`: the first row as a mapping (duplicate
labels collapse to the last column, as in a Python dict literal); raises
`IndexError` when the frame has no row. -/
def dfToRecord (df : DataFrame) : Except PyErr (List (String × Val)) :=
  if colLen df == 0 then .error (.indexError "list index out of range")
  else .ok (df.cols.foldl (fun acc p => dSet acc p.1 (p.2.headD .vNone)) [])

/-- The per-table body of the `tables` loop in
`clean_unified_dashboard_data`. -/
def cleanTableEntry (cfg : CleanerCfg) (table : Val) : Except PyErr Val :=
  match table with
  | .vDict kvs => do
      let headers := dGet kvs "headers" (.vList [])
      let rows := dGet kvs "rows" (.vList [])
      let df ←
        if truthy headers && truthy rows then mkDFWithCols headers rows
        else mkDFNoCols rows
      let df2 ← cleanDF cfg df
      .ok (.vFrame df2.cols)
  | other => .ok other

/-- The shared body of the `kpis` / `filters` / `visuals` loops: a mapping is
wrapped in a one-row frame and cleaned; anything else passes through. -/
def cleanRecordEntry (cfg : CleanerCfg) (item : Val) : Except PyErr Val :=
  match item with
  | .vDict kvs => do
      let df ← cleanDF cfg (mkDFFromDict kvs)
      .ok (.vFrame df.cols)
  | other => .ok other

/-- The per-component body of the `components` loop: ensure `highlights`,
and for the four structured kinds clean the remaining attributes through a
one-row frame, re-attaching `highlights` and any `drill_state`. -/
def cleanComponentEntry (cfg : CleanerCfg) (comp : Val) : Except PyErr Val :=
  match comp with
  | .vDict kvs0 => do
      let kvs := if hasKey kvs0 "highlights" then kvs0
                 else dSet kvs0 "highlights" (.vList [])
      let compType := dGet kvs "type" (.vStr "unknown")
      if ["table", "kpi", "filter", "visual"].any (valEqStr compType) then do
        let highlights := dGet kvs "highlights" (.vList [])
        let kvs1 := dErase kvs "highlights"
        let ds := dGet kvs1 "drill_state" .vNone
        let kvs2 := dErase kvs1 "drill_state"
        let df ← cleanDF cfg (mkDFFromDict kvs2)
        let rec0 ← dfToRecord df
        let rec1 := dSet rec0 "highlights" highlights
        let rec2 := match ds with
                    | .vNone => rec1
                    | other => dSet rec1 "drill_state" other
        .ok (.vDict rec2)
      else
        .ok (.vDict kvs)
  | other => .ok other

/-- `DataCleaner.clean_unified_dashboard_data`: builds the cleaned dictionary
with the literal key order of the source, passing `html_text`, `error`,
`source`, `auth_type`, `drill_state` and `layout` through from the input and
cleaning the five container entries. -/
def cleanUnifiedDashboardData (cfg : CleanerCfg) (extracted : List (String × Val)) :
    Except PyErr (List (String × Val)) := do
  let tablesIn ← pyIter (dGet extracted "tables" (.vList []))
  let tablesC ← tablesIn.mapM (cleanTableEntry cfg)
  let kpisIn ← pyIter (dGet extracted "kpis" (.vList []))
  let kpisC ← kpisIn.mapM (cleanRecordEntry cfg)
  let filtersIn ← pyIter (dGet extracted "filters" (.vList []))
  let filtersC ← filtersIn.mapM (cleanRecordEntry cfg)
  let visualsIn ← pyIter (dGet extracted "visuals" (.vList []))
  let visualsC ← visualsIn.mapM (cleanRecordEntry cfg)
  let compsIn ← pyIter (dGet extracted "components" (.vList []))
  let compsC ← compsIn.mapM (cleanComponentEntry cfg)
  .ok [("tables", .vList tablesC),
       ("kpis", .vList kpisC),
       ("filters", .vList filtersC),
       ("visuals", .vList visualsC),
       ("layout", dGet extracted "layout" (.vDict [])),
       ("components", .vList compsC),
       ("html_text", dGet extracted "html_text" (.vStr "")),
       ("error", dGet extracted "error" .vNone),
       ("source", dGet extracted "source" (.vStr "")),
       ("auth_type", dGet extracted "auth_type" (.vStr "")),
       ("drill_state", dGet extracted "drill_state" (.vDict []))]

/-! ### Auxiliary definitions used by the verification statements -/

/-- Payload of a non-raising call (and `[]` for a raising one); used to name
the value of a call that is separately proved to return `ok`. -/
def okOrEmpty : Except PyErr (List (String × Val)) → List (String × Val)
  | .ok u => u
  | .error _ => []

/-- A component value exposes a `highlights` field: it is a mapping carrying
that key. -/
def compHasHighlights (v : Val) : Bool :=
  match v with
  | .vDict kvs => hasKey kvs "highlights"
  | _ => false

/-- The exception is the `ConfigurationError` named by the specification. -/
def isConfigurationError (e : PyErr) : Bool :=
  match e with
  | .configurationError _ => true
  | _ => false

/-- A connector behaviour that always reports success (used to drive the
extractor into its dispatch). -/
def stubConnectSuccess : String → String → List (String × Val) → Except PyErr Val :=
  fun _ _ _ => .ok (.vDict [("status", .vStr "success")])

/-- Inert adapter behaviours (never consulted on the paths under test). -/
def stubExtractors : Extractors :=
  ⟨fun _ _ _ _ => .ok .vNone, fun _ _ _ => .ok .vNone,
   fun _ _ _ => .ok .vNone, fun _ _ _ => .ok .vNone⟩

/-! ### Shared lemmas -/

theorem exceptBindOk {ε α β : Type} {x : Except ε α} {f : α → Except ε β} {b : β}
    (h : x >>= f = .ok b) : ∃ a, x = .ok a ∧ f a = .ok b := by
  cases x with
  | error e => simp [Bind.bind, Except.bind] at h
  | ok a => exact ⟨a, rfl, by simpa [Bind.bind, Except.bind] using h⟩

theorem dGet_of_hasKey_eq (kvs : List (String × Val)) (k : String)
    (h : hasKey kvs k = true) (d1 d2 : Val) : dGet kvs k d1 = dGet kvs k d2 := by
  induction kvs with
  | nil => simp [hasKey] at h
  | cons p rest ih =>
      by_cases hp : p.1 = k
      · simp [dGet, hp]
      · simp only [hasKey, Bool.or_eq_true, beq_iff_eq] at h
        rcases h with h | h
        · exact absurd h hp
        · simp [dGet, hp, ih h]

theorem dGet_of_not_hasKey (kvs : List (String × Val)) (k : String)
    (h : hasKey kvs k = false) (d : Val) : dGet kvs k d = d := by
  induction kvs with
  | nil => rfl
  | cons p rest ih =>
      simp only [hasKey, Bool.or_eq_false_iff, beq_eq_false_iff_ne] at h
      simp [dGet, h.1, ih (by simpa using h.2)]

theorem hasKey_dSet_self (kvs : List (String × Val)) (k : String) (v : Val) :
    hasKey (dSet kvs k v) k = true := by
  induction kvs with
  | nil => simp [dSet, hasKey]
  | cons p rest ih =>
      by_cases hp : p.1 = k
      · simp [dSet, hasKey, hp]
      · simp [dSet, hasKey, hp, ih]

theorem getCount_bumpCount_self (c : List (String × Nat)) (k : String) :
    getCount (bumpCount c k) k = getCount c k + 1 := by
  induction c with
  | nil => simp [bumpCount, getCount]
  | cons p rest ih =>
      by_cases h : p.1 = k
      · simp [bumpCount, getCount, h]
      · simp [bumpCount, getCount, h, ih]

theorem getCount_bumpCount_ne (c : List (String × Nat)) {k x : String} (h : x ≠ k) :
    getCount (bumpCount c k) x = getCount c x := by
  have hkx : ¬ k = x := fun hh => h hh.symm
  induction c with
  | nil => simp [bumpCount, getCount, hkx]
  | cons p rest ih =>
      by_cases hp : p.1 = k
      · simp [bumpCount, getCount, hp, hkx]
      · simp [bumpCount, getCount, hp, ih]

theorem dedupAux_eq_self (l : List String) : ∀ c : List (String × Nat),
    (∀ x ∈ l, getCount c x = 0) → l.Nodup → dedupAux c l = l := by
  induction l with
  | nil => intro c _ _; rfl
  | cons col rest ih =>
      intro c hc hl
      have h0 : getCount c col = 0 := hc col (by simp)
      have h1 : getCount (bumpCount c col) col = 1 := by
        rw [getCount_bumpCount_self, h0]
      rw [show dedupAux c (col :: rest)
            = (if getCount (bumpCount c col) col > 1 then
                 col ++ "_" ++ toString (getCount (bumpCount c col) col) else col)
              :: dedupAux (bumpCount c col) rest from rfl, h1]
      norm_num
      exact ih (bumpCount c col)
        (fun x hx => by
          have hne : x ≠ col := by
            intro hh; subst hh
            exact (List.nodup_cons.mp hl).1 hx
          rw [getCount_bumpCount_ne _ hne]
          exact hc x (by simp [hx]))
        (List.nodup_cons.mp hl).2

theorem extractDashboard_shape
    (connect : String → String → List (String × Val) → Except PyErr Val)
    (E : Extractors) (source authType : String)
    (kwargs : List (String × Val)) (ds : Val) (d : List (String × Val))
    (h : extractDashboard connect E source authType kwargs ds = .ok d) :
    (∃ e, d = failResult source authType e) ∨
    (∃ r, ensureUnifiedSchema r source authType ds = .ok d) := by
  unfold extractDashboard at h
  rcases hb : extractDashboardBody connect E source authType kwargs ds with e | d0
  · rw [hb] at h
    injection h with h
    exact Or.inl ⟨.vStr (pyErrMsg e), h.symm⟩
  · rw [hb] at h
    injection h with h
    subst h
    unfold extractDashboardBody at hb
    rcases exceptBindOk hb with ⟨conn, _, hb⟩
    rcases exceptBindOk hb with ⟨st, _, hb⟩
    split at hb
    · rcases exceptBindOk hb with ⟨e, _, hb⟩
      injection hb with hb
      exact Or.inl ⟨e, hb.symm⟩
    · rcases exceptBindOk hb with ⟨result, _, hb⟩
      cases result with
      | some r => exact Or.inr ⟨r, hb⟩
      | none =>
          injection hb with hb
          exact Or.inl ⟨.vStr "Unsupported source/auth_type combination.", hb.symm⟩

theorem ensureUnifiedSchema_keys (r : Val) (source authType : String) (ds : Val)
    (u : List (String × Val)) (h : ensureUnifiedSchema r source authType ds = .ok u) :
    dKeys u = ["status", "source", "auth_type", "tables", "kpis", "filters",
               "visuals", "layout", "components", "html_text", "drill_state", "error"] := by
  cases r with
  | vDict kvs =>
      unfold ensureUnifiedSchema at h
      rcases exceptBindOk h with ⟨comps, _, h⟩
      injection h with h
      subst h
      rfl
  | vNone => exact absurd h (by simp [ensureUnifiedSchema])
  | vBool b => exact absurd h (by simp [ensureUnifiedSchema])
  | vNum q => exact absurd h (by simp [ensureUnifiedSchema])
  | vStr s => exact absurd h (by simp [ensureUnifiedSchema])
  | vDate y m dd => exact absurd h (by simp [ensureUnifiedSchema])
  | vList xs => exact absurd h (by simp [ensureUnifiedSchema])
  | vFrame xs => exact absurd h (by simp [ensureUnifiedSchema])

theorem ensureUnifiedSchema_components (kvs : List (String × Val))
    (source authType : String) (ds : Val) (u : List (String × Val))
    (h : ensureUnifiedSchema (.vDict kvs) source authType ds = .ok u) :
    ∃ comps, pyIter (dGet kvs "components" (.vList [])) = .ok comps ∧
      dGet u "components" .vNone = .vList (comps.map addHighlights) := by
  unfold ensureUnifiedSchema at h
  rcases exceptBindOk h with ⟨comps, hc, h⟩
  injection h with h
  subst h
  exact ⟨comps, hc, rfl⟩

theorem ensureUnifiedSchema_drill_state (kvs : List (String × Val))
    (source authType : String) (ds : Val) (u : List (String × Val))
    (h : ensureUnifiedSchema (.vDict kvs) source authType ds = .ok u) :
    dGet u "drill_state" .vNone = dGet kvs "drill_state" (pyOr ds (.vDict [])) := by
  unfold ensureUnifiedSchema at h
  rcases exceptBindOk h with ⟨comps, _, h⟩
  injection h with h
  subst h
  rfl

theorem addHighlights_dict (c : Val) (kvs : List (String × Val))
    (h : addHighlights c = .vDict kvs) : hasKey kvs "highlights" = true := by
  cases c with
  | vDict kvs0 =>
      simp only [addHighlights] at h
      by_cases hk : hasKey kvs0 "highlights"
      · rw [if_pos hk] at h
        injection h with h
        subst h
        exact hk
      · rw [if_neg hk] at h
        injection h with h
        subst h
        exact hasKey_dSet_self kvs0 "highlights" (.vList [])
  | vNone => simp [addHighlights] at h
  | vBool b => simp [addHighlights] at h
  | vNum q => simp [addHighlights] at h
  | vStr s => simp [addHighlights] at h
  | vDate y m d => simp [addHighlights] at h
  | vList xs => simp [addHighlights] at h
  | vFrame xs => simp [addHighlights] at h

theorem normalizeValuesCol_get_aux (cells : List Val) (i : Nat) (c : Val)
    (hc : cells[i]? = some c) :
    (normalizeValuesCol cells)[i]?
      = some (match parseRatNum (removeCurrencyPct (stripStr (cellStr c))) with
              | some q => Val.vNum
                  (if 2 * ((cells.map (fun x => stripStr (cellStr x))).countP containsPct)
                       > (cells.map (fun x => stripStr (cellStr x))).length
                   then q / 100 else q)
              | none => c) := by
  unfold normalizeValuesCol
  have hs : (cells.map (fun x => stripStr (cellStr x)))[i]?
      = some (stripStr (cellStr c)) := by
    rw [List.getElem?_map, hc]
    rfl
  rw [List.getElem?_map, List.zip, List.getElem?_zipWith', hc, hs]
  rfl

/-! ### Claim C4 -/

/-- C4: The claim says `drill_up` on a visual with an empty drill_state
returns a reported `EmptyStateError` failure and does not raise.  The code
instead pops unconditionally: on a visual whose `drill_state` is the empty
list — and equally on a visual with no `drill_state` at all, since the
endpoint first installs an empty list and then pops it — the embedded
`drill_up` raises `IndexError` (pop from empty list) rather than returning a
structured failure.  This contradicts the stated intent, so the code, not the
claim, is at fault. -/
theorem drill_up_empty_state_raises_index_error :
    drillUp (fun _ => .ok [])
      [("visuals", .vDict [("v1", .vDict [("name", .vStr "v"), ("drill_state", .vList [])])])]
      "v" = .error (.indexError "pop from empty list")
    ∧ drillUp (fun _ => .ok [])
      [("visuals", .vDict [("v1", .vDict [("name", .vStr "v")])])]
      "v" = .error (.indexError "pop from empty list") :=
  ⟨rfl, rfl⟩

/-! ### Claim C6 -/

/-- C6 counterexample: column normalization is not idempotent.  On the
headers `["revenue_usd", "sales_usd"]` the first pass maps the alias
`sales_usd` to `revenue_usd`, producing a duplicate; the second pass then
deduplicates what the first pass emitted, yielding `revenue_usd_2`, so
applying normalization twice differs from applying it once. -/
theorem normalize_columns_not_idempotent :
    normalizeColumnNames defaultSemanticMap ["revenue_usd", "sales_usd"]
      = ["revenue_usd", "revenue_usd"]
    ∧ normalizeColumnNames defaultSemanticMap
        (normalizeColumnNames defaultSemanticMap ["revenue_usd", "sales_usd"])
      = ["revenue_usd", "revenue_usd_2"]
    ∧ normalizeColumnNames defaultSemanticMap
        (normalizeColumnNames defaultSemanticMap ["revenue_usd", "sales_usd"])
      ≠ normalizeColumnNames defaultSemanticMap ["revenue_usd", "sales_usd"] := by
  refine ⟨by decide, by decide, by decide⟩

/-- C6 (amended): column normalization is idempotent on every header sequence
whose once-normalized names are unchanged by re-slugification, pairwise
distinct, and not themselves semantic aliases; in general a second
application can rename (deduplicating names merged by the alias map, or
re-slugifying a suffix grafted onto an empty name). -/
theorem normalize_columns_conditionally_idempotent (sm : SemanticMap) (hs : List String)
    (h1 : ∀ n ∈ normalizeColumnNames sm hs, slugify n = n)
    (h2 : (normalizeColumnNames sm hs).Nodup)
    (h3 : ∀ n ∈ normalizeColumnNames sm hs, aliasLookup sm n = n) :
    normalizeColumnNames sm (normalizeColumnNames sm hs) = normalizeColumnNames sm hs := by
  set out := normalizeColumnNames sm hs with hout
  have hm : out.map slugify = out := by
    calc out.map slugify = out.map id := List.map_congr_left h1
    _ = out := List.map_id out
  have hd : deduplicateColumns out = out := dedupAux_eq_self out []
    (fun x _ => rfl) h2
  show (deduplicateColumns (out.map slugify)).map (aliasLookup sm) = out
  rw [hm, hd]
  calc out.map (aliasLookup sm) = out.map id := List.map_congr_left h3
  _ = out := List.map_id out

/-- C6 witness: the conditional idempotence theorem applied to the concrete
headers `["Revenue!", "Date Col"]`, whose normalization satisfies all three
side conditions. -/
theorem normalize_columns_conditionally_idempotent_witness :
    normalizeColumnNames defaultSemanticMap
      (normalizeColumnNames defaultSemanticMap ["Revenue!", "Date Col"])
    = normalizeColumnNames defaultSemanticMap ["Revenue!", "Date Col"] :=
  normalize_columns_conditionally_idempotent defaultSemanticMap ["Revenue!", "Date Col"]
    (by decide) (by decide) (by decide)

/-! ### Claim C8 -/

/-- C8 counterexample: an unsupported missing-value strategy raises
`ValueError`, not the `ConfigurationError` named by the claim — the source
has no `ConfigurationError` class at all. -/
theorem unknown_strategy_raises_value_error :
    handleMissingValues ⟨defaultSemanticMap, defaultSynonymMap, "fill_median", .vNum 0⟩ ⟨[]⟩
      = .error (.valueError "Unsupported missing value strategy: fill_median")
    ∧ isConfigurationError (.valueError "Unsupported missing value strategy: fill_median")
      = false :=
  ⟨rfl, rfl⟩

/-- C8 (amended): a missing-value strategy outside
`{drop, fill_mean, fill_constant}` makes `handle_missing_values` raise a
`ValueError` naming the strategy (a reported configuration error, though not
a `ConfigurationError` class); each of the three supported strategies
completes without raising. -/
theorem missing_value_strategy_dispatch (cfg : CleanerCfg) (df : DataFrame) :
    (cfg.missingValueStrategy ∉ (["drop", "fill_mean", "fill_constant"] : List String) →
      handleMissingValues cfg df
        = .error (.valueError ("Unsupported missing value strategy: " ++ cfg.missingValueStrategy)))
    ∧ (cfg.missingValueStrategy ∈ (["drop", "fill_mean", "fill_constant"] : List String) →
      ∃ df2, handleMissingValues cfg df = .ok df2) := by
  constructor
  · intro h
    simp only [List.mem_cons, List.not_mem_nil, or_false, not_or] at h
    simp [handleMissingValues, h.1, h.2.1, h.2.2]
  · intro h
    simp only [List.mem_cons, List.not_mem_nil, or_false] at h
    rcases h with h | h | h
    · exact ⟨dropna df, by simp [handleMissingValues, h]⟩
    · exact ⟨fillMean df, by simp [handleMissingValues, h]⟩
    · exact ⟨fillConst cfg.fillConstant df, by simp [handleMissingValues, h]⟩

/-- C8 witness: the dispatch theorem at the concrete strategies `"median"`
(unsupported, raising `ValueError`) and the default `"drop"` (supported,
returning a frame). -/
theorem missing_value_strategy_dispatch_witness :
    handleMissingValues ⟨defaultSemanticMap, defaultSynonymMap, "median", .vNum 0⟩ ⟨[]⟩
      = .error (.valueError "Unsupported missing value strategy: median")
    ∧ ∃ df2, handleMissingValues defaultCfg ⟨[]⟩ = .ok df2 :=
  ⟨(missing_value_strategy_dispatch ⟨defaultSemanticMap, defaultSynonymMap, "median", .vNum 0⟩
      ⟨[]⟩).1 (by decide),
   (missing_value_strategy_dispatch defaultCfg ⟨[]⟩).2 (by decide)⟩

/-! ### Claim C9 -/

/-- C9 counterexample: in a column where exactly 50% of the values contain a
percent sign, value normalization does not divide by 100 (the source uses a
strict `> 0.5` test), so `"45%"` cleans to `45`, not to the `0.45` the
claim's at-least-50% reading requires. -/
theorem percent_at_exactly_half_not_divided :
    normalizeValues ⟨[("c", [.vStr "45%", .vStr "12"])]⟩
      = ⟨[("c", [.vNum 45, .vNum 12])]⟩
    ∧ 2 * ((["45%", "12"] : List String).countP containsPct)
      = (["45%", "12"] : List String).length
    ∧ (45 : Rat) ≠ 45 / 100 := by
  refine ⟨rfl, by decide, by norm_num⟩

/-- C9 (amended): value normalization strips currency symbols, thousands
separators and percent signs; when strictly more than 50% of a column's
values contain `%` the parsed numbers are divided by 100 (so a column of just
`"45%"` cleans to `0.45`, and a column of `"$1,200"` cleans to `1200`), and
at half or below they are not; every cell whose stripped text fails numeric
conversion is kept unchanged, and no exception is raised. -/
theorem normalize_values_behaviour :
    normalizeValues ⟨[("pct", [.vStr "45%"])]⟩ = ⟨[("pct", [.vNum (45 / 100)])]⟩
    ∧ normalizeValues ⟨[("amt", [.vStr "$1,200"])]⟩ = ⟨[("amt", [.vNum 1200])]⟩
    ∧ (∀ (cells : List Val) (i : Nat) (c : Val), cells[i]? = some c →
        parseRatNum (removeCurrencyPct (stripStr (cellStr c))) = none →
        (normalizeValuesCol cells)[i]? = some c)
    ∧ (∀ (cells : List Val) (i : Nat) (c : Val) (q : Rat), cells[i]? = some c →
        parseRatNum (removeCurrencyPct (stripStr (cellStr c))) = some q →
        2 * ((cells.map (fun x => stripStr (cellStr x))).countP containsPct) > cells.length →
        (normalizeValuesCol cells)[i]? = some (.vNum (q / 100)))
    ∧ (∀ (cells : List Val) (i : Nat) (c : Val) (q : Rat), cells[i]? = some c →
        parseRatNum (removeCurrencyPct (stripStr (cellStr c))) = some q →
        2 * ((cells.map (fun x => stripStr (cellStr x))).countP containsPct) ≤ cells.length →
        (normalizeValuesCol cells)[i]? = some (.vNum q)) := by
  refine ⟨rfl, rfl, ?_, ?_, ?_⟩
  · intro cells i c hc hp
    have h := normalizeValuesCol_get_aux cells i c hc
    rw [hp] at h
    exact h
  · intro cells i c q hc hp hpct
    have h := normalizeValuesCol_get_aux cells i c hc
    simp only [hp] at h
    rw [h, List.length_map, if_pos hpct]
  · intro cells i c q hc hp hpct
    have h := normalizeValuesCol_get_aux cells i c hc
    simp only [hp] at h
    rw [h, List.length_map, if_neg (not_lt.mpr hpct)]

/-- C9 witness: the behaviour theorem at concrete cells — an unparseable
string survives unchanged, a lone `"45%"` becomes `0.45`, and a
half-percent column keeps the undivided number. -/
theorem normalize_values_behaviour_witness :
    (normalizeValuesCol [.vStr "n/a"])[0]? = some (.vStr "n/a")
    ∧ (normalizeValuesCol [.vStr "45%"])[0]? = some (.vNum (45 / 100))
    ∧ (normalizeValuesCol [.vStr "7", .vStr "8%"])[0]? = some (.vNum 7) :=
  ⟨normalize_values_behaviour.2.2.1 [.vStr "n/a"] 0 (.vStr "n/a") rfl rfl,
   normalize_values_behaviour.2.2.2.1 [.vStr "45%"] 0 (.vStr "45%") 45 rfl rfl (by decide),
   normalize_values_behaviour.2.2.2.2 [.vStr "7", .vStr "8%"] 0 (.vStr "7") 7 rfl rfl (by decide)⟩

/-! ### Claim C1 -/

/-- C1 counterexample: a failed extraction does not carry every schema field.
Extracting an unsupported source yields `_fail_result`, whose dictionary has
status `failed` but no `drill_state` key at all, refuting the claim that all
schema fields are present even on failure. -/
theorem failed_result_lacks_drill_state :
    extractDashboard stubConnectSuccess stubExtractors "sqlserver" "public" [] .vNone
      = .ok (failResult "sqlserver" "public" (.vStr "Unsupported source/auth_type combination."))
    ∧ dGet (failResult "sqlserver" "public" (.vStr "Unsupported source/auth_type combination."))
        "status" .vNone = .vStr "failed"
    ∧ hasKey (failResult "sqlserver" "public" (.vStr "Unsupported source/auth_type combination."))
        "drill_state" = false :=
  ⟨rfl, rfl, rfl⟩

/-- C1 (amended): every dashboard returned by `extract_dashboard` is either
the `_fail_result` shape or the `_ensure_unified_schema` shape.  The failure
shape carries every schema field except `drill_state`, its five containers
are empty, its status is `failed` and its `error` is exactly the reported
payload; the unified shape carries all twelve fields.  (A `failed` status can
also flow through the unified shape when the adapter itself reports it, so
emptiness is a property of the failure constructor, not of the status.) -/
theorem extract_dashboard_schema_shapes
    (connect : String → String → List (String × Val) → Except PyErr Val)
    (E : Extractors) (source authType : String)
    (kwargs : List (String × Val)) (ds : Val) :
    (∀ e, dKeys (failResult source authType e)
        = ["status", "source", "auth_type", "tables", "kpis", "filters",
           "visuals", "layout", "components", "html_text", "error"]
      ∧ hasKey (failResult source authType e) "drill_state" = false
      ∧ dGet (failResult source authType e) "status" .vNone = .vStr "failed"
      ∧ dGet (failResult source authType e) "tables" .vNone = .vList []
      ∧ dGet (failResult source authType e) "kpis" .vNone = .vList []
      ∧ dGet (failResult source authType e) "filters" .vNone = .vList []
      ∧ dGet (failResult source authType e) "visuals" .vNone = .vList []
      ∧ dGet (failResult source authType e) "components" .vNone = .vList []
      ∧ dGet (failResult source authType e) "error" .vNone = e)
    ∧ (∀ r u, ensureUnifiedSchema r source authType ds = .ok u →
        dKeys u = ["status", "source", "auth_type", "tables", "kpis", "filters",
                   "visuals", "layout", "components", "html_text", "drill_state", "error"])
    ∧ (∀ d, extractDashboard connect E source authType kwargs ds = .ok d →
        dKeys d = ["status", "source", "auth_type", "tables", "kpis", "filters",
                   "visuals", "layout", "components", "html_text", "error"]
        ∨ dKeys d = ["status", "source", "auth_type", "tables", "kpis", "filters",
                     "visuals", "layout", "components", "html_text", "drill_state", "error"]) := by
  refine ⟨fun e => ⟨rfl, rfl, rfl, rfl, rfl, rfl, rfl, rfl, rfl⟩, ?_, ?_⟩
  · exact fun r u h => ensureUnifiedSchema_keys r source authType ds u h
  · intro d h
    rcases extractDashboard_shape connect E source authType kwargs ds d h with ⟨e, rfl⟩ | ⟨r, h2⟩
    · exact Or.inl rfl
    · exact Or.inr (ensureUnifiedSchema_keys r source authType ds d h2)

/-- C1 witness: the shape theorem at a concrete failing call (unsupported
source) and at a concrete unified result. -/
theorem extract_dashboard_schema_shapes_witness :
    dKeys (failResult "sqlserver" "public" .vNone)
      = ["status", "source", "auth_type", "tables", "kpis", "filters",
         "visuals", "layout", "components", "html_text", "error"]
    ∧ dKeys (okOrEmpty (ensureUnifiedSchema (.vDict []) "powerbi" "public" .vNone))
      = ["status", "source", "auth_type", "tables", "kpis", "filters",
         "visuals", "layout", "components", "html_text", "drill_state", "error"] :=
  ⟨((extract_dashboard_schema_shapes stubConnectSuccess stubExtractors
      "sqlserver" "public" [] .vNone).1 .vNone).1,
   (extract_dashboard_schema_shapes stubConnectSuccess stubExtractors
      "powerbi" "public" [] .vNone).2.1 (.vDict [])
      (okOrEmpty (ensureUnifiedSchema (.vDict []) "powerbi" "public" .vNone)) rfl⟩

/-! ### Claim C2 -/

/-- C2: `extract_dashboard` is an error-containment boundary.  It always
returns a value (never propagates an exception); when the connector raises,
or any of the four source/auth adapters raises after a successful
connection, the result is `_fail_result` with status `failed` and the
exception text as the error; an unknown source or auth_type likewise yields
the failed `Unsupported source/auth_type combination.` result rather than a
raise. -/
theorem extract_dashboard_contains_failures
    (connect : String → String → List (String × Val) → Except PyErr Val)
    (E : Extractors) (source authType : String)
    (kwargs : List (String × Val)) (ds : Val) :
    (∃ d, extractDashboard connect E source authType kwargs ds = .ok d)
    ∧ (∀ m, dGet (failResult source authType (.vStr m)) "status" .vNone = .vStr "failed"
        ∧ dGet (failResult source authType (.vStr m)) "error" .vNone = .vStr m)
    ∧ (∀ e, connect source authType kwargs = .error e →
        extractDashboard connect E source authType kwargs ds
          = .ok (failResult source authType (.vStr (pyErrMsg e))))
    ∧ (∀ client md e,
        connect "powerbi" "private" kwargs
          = .ok (.vDict [("status", .vStr "success"), ("client", client), ("metadata", .vDict md)]) →
        E.pbPrivate client (dGet md "workspace_id" .vNone)
          (dGet kwargs "report_id" .vNone) ds = .error e →
        extractDashboard connect E "powerbi" "private" kwargs ds
          = .ok (failResult "powerbi" "private" (.vStr (pyErrMsg e))))
    ∧ (∀ rest e,
        connect "powerbi" "public" kwargs = .ok (.vDict (("status", .vStr "success") :: rest)) →
        E.pbPublic (dGet kwargs "embed_url" .vNone)
          (dGet kwargs "use_ocr" (.vBool true)) ds = .error e →
        extractDashboard connect E "powerbi" "public" kwargs ds
          = .ok (failResult "powerbi" "public" (.vStr (pyErrMsg e))))
    ∧ (∀ client e,
        connect "tableau" "private" kwargs
          = .ok (.vDict [("status", .vStr "success"), ("client", client)]) →
        E.tbPrivate client (dGet kwargs "view_id" .vNone) ds = .error e →
        extractDashboard connect E "tableau" "private" kwargs ds
          = .ok (failResult "tableau" "private" (.vStr (pyErrMsg e))))
    ∧ (∀ rest e,
        connect "tableau" "public" kwargs = .ok (.vDict (("status", .vStr "success") :: rest)) →
        E.tbPublic (dGet kwargs "public_url" .vNone)
          (dGet kwargs "use_ocr" (.vBool true)) ds = .error e →
        extractDashboard connect E "tableau" "public" kwargs ds
          = .ok (failResult "tableau" "public" (.vStr (pyErrMsg e))))
    ∧ (∀ rest,
        connect source authType kwargs = .ok (.vDict (("status", .vStr "success") :: rest)) →
        source ≠ "powerbi" → source ≠ "tableau" →
        extractDashboard connect E source authType kwargs ds
          = .ok (failResult source authType (.vStr "Unsupported source/auth_type combination.")))
    ∧ (∀ rest,
        connect source authType kwargs = .ok (.vDict (("status", .vStr "success") :: rest)) →
        authType ≠ "private" → authType ≠ "public" →
        extractDashboard connect E source authType kwargs ds
          = .ok (failResult source authType (.vStr "Unsupported source/auth_type combination."))) := by
  refine ⟨?_, fun m => ⟨rfl, rfl⟩, ?_, ?_, ?_, ?_, ?_, ?_, ?_⟩
  · unfold extractDashboard
    cases extractDashboardBody connect E source authType kwargs ds with
    | ok d => exact ⟨d, rfl⟩
    | error e => exact ⟨_, rfl⟩
  · intro e h
    unfold extractDashboard extractDashboardBody
    rw [h]
    rfl
  · intro client md e hconn hext
    unfold extractDashboard extractDashboardBody dispatchExtract
    rw [hconn]
    simp [Bind.bind, Except.bind, pySubscript, pyGet, valEqStr, hext]
  · intro rest e hconn hext
    unfold extractDashboard extractDashboardBody dispatchExtract
    rw [hconn]
    simp [Bind.bind, Except.bind, pySubscript, pyGet, valEqStr, hext]
  · intro client e hconn hext
    unfold extractDashboard extractDashboardBody dispatchExtract
    rw [hconn]
    simp [Bind.bind, Except.bind, pySubscript, pyGet, valEqStr, hext]
  · intro rest e hconn hext
    unfold extractDashboard extractDashboardBody dispatchExtract
    rw [hconn]
    simp [Bind.bind, Except.bind, pySubscript, pyGet, valEqStr, hext]
  · intro rest hconn hs1 hs2
    unfold extractDashboard extractDashboardBody dispatchExtract
    rw [hconn]
    simp [Bind.bind, Except.bind, pySubscript, valEqStr, hs1, hs2, pure, Except.pure]
  · intro rest hconn ha1 ha2
    unfold extractDashboard extractDashboardBody dispatchExtract
    rw [hconn]
    by_cases hsrc : source = "powerbi" <;>
      simp [Bind.bind, Except.bind, pySubscript, valEqStr, hsrc, ha1, ha2, pure, Except.pure]

/-- C2 witness: containment at concrete behaviours — a raising connector is
converted into the failed payload with the exception text, and an
unsupported source yields the failed unsupported-combination payload. -/
theorem extract_dashboard_contains_failures_witness :
    extractDashboard (fun _ _ _ => .error (.valueError "auth expired")) stubExtractors
      "powerbi" "private" [] .vNone
      = .ok (failResult "powerbi" "private" (.vStr "auth expired"))
    ∧ extractDashboard stubConnectSuccess stubExtractors "qlik" "public" [] .vNone
      = .ok (failResult "qlik" "public" (.vStr "Unsupported source/auth_type combination.")) :=
  ⟨(extract_dashboard_contains_failures (fun _ _ _ => .error (.valueError "auth expired"))
      stubExtractors "powerbi" "private" [] .vNone).2.2.1 (.valueError "auth expired") rfl,
   (extract_dashboard_contains_failures stubConnectSuccess stubExtractors
      "qlik" "public" [] .vNone).2.2.2.2.2.2.2.1 [] rfl (by decide) (by decide)⟩

/-! ### Claim C3 -/

/-- C3 counterexample: the Unifier injects `highlights` only into
dictionary-shaped components.  A non-dictionary component (here the bare
string `"note"`) passes through a successful unification unchanged and
exposes no `highlights` field, refuting the claim that every component does,
regardless of variant. -/
theorem non_dict_component_without_highlights :
    ensureUnifiedSchema (.vDict [("components", .vList [.vStr "note"])]) "powerbi" "public" .vNone
      = .ok (okOrEmpty (ensureUnifiedSchema (.vDict [("components", .vList [.vStr "note"])])
              "powerbi" "public" .vNone))
    ∧ dGet (okOrEmpty (ensureUnifiedSchema (.vDict [("components", .vList [.vStr "note"])])
              "powerbi" "public" .vNone)) "status" .vNone = .vStr "success"
    ∧ dGet (okOrEmpty (ensureUnifiedSchema (.vDict [("components", .vList [.vStr "note"])])
              "powerbi" "public" .vNone)) "components" .vNone = .vList [.vStr "note"]
    ∧ compHasHighlights (.vStr "note") = false :=
  ⟨rfl, rfl, rfl, rfl⟩

/-- C3 (amended): in every result the Unifier accepts, each component that is
a mapping exposes a `highlights` key, injected as `[]` when the adapter
omitted it; components that are not mappings pass through untouched and carry
no such field. -/
theorem dict_components_expose_highlights (result : Val) (source authType : String)
    (ds : Val) (u : List (String × Val))
    (h : ensureUnifiedSchema result source authType ds = .ok u) :
    ∃ cs, dGet u "components" .vNone = .vList cs
      ∧ ∀ c ∈ cs, ∀ kvs, c = .vDict kvs → hasKey kvs "highlights" = true := by
  cases result with
  | vDict kvs0 =>
      rcases ensureUnifiedSchema_components kvs0 source authType ds u h with ⟨comps, _, hcomp⟩
      refine ⟨comps.map addHighlights, hcomp, ?_⟩
      intro c hc kvs hck
      rcases List.mem_map.mp hc with ⟨c0, _, rfl⟩
      exact addHighlights_dict c0 kvs hck
  | vNone => exact absurd h (by simp [ensureUnifiedSchema])
  | vBool b => exact absurd h (by simp [ensureUnifiedSchema])
  | vNum q => exact absurd h (by simp [ensureUnifiedSchema])
  | vStr s => exact absurd h (by simp [ensureUnifiedSchema])
  | vDate y m d => exact absurd h (by simp [ensureUnifiedSchema])
  | vList xs => exact absurd h (by simp [ensureUnifiedSchema])
  | vFrame xs => exact absurd h (by simp [ensureUnifiedSchema])

/-- C3 witness: the highlights theorem at a concrete adapter result with one
mapping component lacking `highlights`. -/
theorem dict_components_expose_highlights_witness :
    ∃ cs, dGet (okOrEmpty (ensureUnifiedSchema
        (.vDict [("components", .vList [.vDict [("name", .vStr "x")]])])
        "powerbi" "public" .vNone)) "components" .vNone = .vList cs
      ∧ ∀ c ∈ cs, ∀ kvs, c = .vDict kvs → hasKey kvs "highlights" = true :=
  dict_components_expose_highlights
    (.vDict [("components", .vList [.vDict [("name", .vStr "x")]])]) "powerbi" "public" .vNone
    (okOrEmpty (ensureUnifiedSchema
        (.vDict [("components", .vList [.vDict [("name", .vStr "x")]])])
        "powerbi" "public" .vNone)) rfl

/-! ### Claim C5 -/

/-- C5 counterexample: the adapter's own `drill_state` wins, not the
caller's.  With an adapter result carrying `drill_state = {a: [L1]}` and a
caller-supplied prior `drill_state = {b: [L2]}`, the emitted dashboard
carries the adapter's mapping, refuting the claim that the caller-supplied
state overwrites it. -/
theorem adapter_drill_state_wins :
    ensureUnifiedSchema (.vDict [("drill_state", .vDict [("a", .vList [.vStr "L1"])])])
        "powerbi" "public" (.vDict [("b", .vList [.vStr "L2"])])
      = .ok (okOrEmpty (ensureUnifiedSchema
          (.vDict [("drill_state", .vDict [("a", .vList [.vStr "L1"])])])
          "powerbi" "public" (.vDict [("b", .vList [.vStr "L2"])])))
    ∧ dGet (okOrEmpty (ensureUnifiedSchema
          (.vDict [("drill_state", .vDict [("a", .vList [.vStr "L1"])])])
          "powerbi" "public" (.vDict [("b", .vList [.vStr "L2"])])))
        "drill_state" .vNone = .vDict [("a", .vList [.vStr "L1"])]
    ∧ (Val.vDict [("a", .vList [.vStr "L1"])]) ≠ .vDict [("b", .vList [.vStr "L2"])] := by
  refine ⟨rfl, rfl, by simp⟩

/-- C5 (amended): the adapter result's `drill_state` takes precedence in the
emitted dashboard; the caller-supplied prior drill_state is used only as the
fallback when the adapter result has no `drill_state` key (and an empty
mapping when that fallback is itself `None` or empty). -/
theorem drill_state_precedence (kvs : List (String × Val)) (source authType : String)
    (ds : Val) (u : List (String × Val))
    (h : ensureUnifiedSchema (.vDict kvs) source authType ds = .ok u) :
    (hasKey kvs "drill_state" = true →
      dGet u "drill_state" .vNone = dGet kvs "drill_state" .vNone)
    ∧ (hasKey kvs "drill_state" = false →
      dGet u "drill_state" .vNone = pyOr ds (.vDict [])) := by
  have hd := ensureUnifiedSchema_drill_state kvs source authType ds u h
  constructor
  · intro hk
    rw [hd]
    exact dGet_of_hasKey_eq kvs "drill_state" hk _ _
  · intro hk
    rw [hd, dGet_of_not_hasKey kvs "drill_state" hk]

/-- C5 witness: precedence at concrete inputs — an adapter-carried
drill_state survives, and only an adapter without one falls back to the
caller's. -/
theorem drill_state_precedence_witness :
    dGet (okOrEmpty (ensureUnifiedSchema (.vDict [("drill_state", .vDict [("a", .vList [])])])
        "powerbi" "public" (.vDict [("b", .vList [])]))) "drill_state" .vNone
      = dGet [("drill_state", .vDict [("a", .vList [])])] "drill_state" .vNone
    ∧ dGet (okOrEmpty (ensureUnifiedSchema (.vDict []) "powerbi" "public"
        (.vDict [("b", .vList [])]))) "drill_state" .vNone
      = pyOr (.vDict [("b", .vList [])]) (.vDict []) :=
  ⟨(drill_state_precedence [("drill_state", .vDict [("a", .vList [])])] "powerbi" "public"
      (.vDict [("b", .vList [])])
      (okOrEmpty (ensureUnifiedSchema (.vDict [("drill_state", .vDict [("a", .vList [])])])
        "powerbi" "public" (.vDict [("b", .vList [])]))) rfl).1 rfl,
   (drill_state_precedence [] "powerbi" "public" (.vDict [("b", .vList [])])
      (okOrEmpty (ensureUnifiedSchema (.vDict []) "powerbi" "public"
        (.vDict [("b", .vList [])]))) rfl).2 rfl⟩

/-! ### Claim C7 -/

/-- C7 counterexample: when the adapter returns `components` as a mapping,
the Unifier iterates the mapping with Python dictionary semantics and so
emits the KEYS, not the values: a mapping `{a: {name: x}}` turns into the
component list `["a"]`, refuting the claim that the values are kept and the
keys discarded. -/
theorem mapping_components_become_keys :
    ensureUnifiedSchema (.vDict [("components", .vDict [("a", .vDict [("name", .vStr "x")])])])
        "powerbi" "public" .vNone
      = .ok (okOrEmpty (ensureUnifiedSchema
          (.vDict [("components", .vDict [("a", .vDict [("name", .vStr "x")])])])
          "powerbi" "public" .vNone))
    ∧ dGet (okOrEmpty (ensureUnifiedSchema
          (.vDict [("components", .vDict [("a", .vDict [("name", .vStr "x")])])])
          "powerbi" "public" .vNone)) "components" .vNone = .vList [.vStr "a"]
    ∧ (Val.vList [.vStr "a"]) ≠ .vList [.vDict [("name", .vStr "x")]] := by
  refine ⟨rfl, rfl, by simp⟩

/-- C7 (amended): when the adapter's `components` entry is a mapping, the
Unifier iterates over its keys, discarding the values, and emits the ordered
key strings as the dashboard's components sequence. -/
theorem mapping_components_iterate_keys (kvs : List (String × Val))
    (m : List (String × Val)) (source authType : String) (ds : Val)
    (u : List (String × Val))
    (h : ensureUnifiedSchema (.vDict kvs) source authType ds = .ok u)
    (hm : dGet kvs "components" (.vList []) = .vDict m) :
    dGet u "components" .vNone = .vList (m.map (fun kv => Val.vStr kv.1)) := by
  rcases ensureUnifiedSchema_components kvs source authType ds u h with ⟨comps, hiter, hcomp⟩
  rw [hm] at hiter
  injection hiter with hiter
  subst hiter
  rw [hcomp, List.map_map]
  exact congrArg Val.vList (List.map_congr_left (fun kv _ => rfl))

/-- C7 witness: key-iteration at a concrete mapping-shaped `components`
entry. -/
theorem mapping_components_iterate_keys_witness :
    dGet (okOrEmpty (ensureUnifiedSchema
        (.vDict [("components", .vDict [("a", .vNone), ("b", .vNone)])])
        "tableau" "public" .vNone)) "components" .vNone
      = .vList [.vStr "a", .vStr "b"] :=
  mapping_components_iterate_keys [("components", .vDict [("a", .vNone), ("b", .vNone)])]
    [("a", .vNone), ("b", .vNone)] "tableau" "public" .vNone
    (okOrEmpty (ensureUnifiedSchema
        (.vDict [("components", .vDict [("a", .vNone), ("b", .vNone)])])
        "tableau" "public" .vNone)) rfl rfl

/-! ### Claim C10 -/

/-- C10: `clean_unified_dashboard_data` passes `html_text`, `error`,
`source`, `auth_type`, `drill_state` and `layout` through from the input
unchanged (with the defaults empty string, `None`, empty string, empty
string, empty mapping and empty mapping when absent); its output keys are
exactly the schema entries, so cleaning transforms only the five container
entries. -/
theorem clean_unified_passthrough_fields (cfg : CleanerCfg)
    (extracted : List (String × Val)) (d : List (String × Val))
    (h : cleanUnifiedDashboardData cfg extracted = .ok d) :
    dKeys d = ["tables", "kpis", "filters", "visuals", "layout", "components",
               "html_text", "error", "source", "auth_type", "drill_state"] ∧
    dGet d "html_text" .vNone = dGet extracted "html_text" (.vStr "") ∧
    dGet d "error" .vNone = dGet extracted "error" .vNone ∧
    dGet d "source" .vNone = dGet extracted "source" (.vStr "") ∧
    dGet d "auth_type" .vNone = dGet extracted "auth_type" (.vStr "") ∧
    dGet d "drill_state" .vNone = dGet extracted "drill_state" (.vDict []) ∧
    dGet d "layout" .vNone = dGet extracted "layout" (.vDict []) := by
  unfold cleanUnifiedDashboardData at h
  rcases exceptBindOk h with ⟨t1, _, h⟩
  rcases exceptBindOk h with ⟨t2, _, h⟩
  rcases exceptBindOk h with ⟨k1, _, h⟩
  rcases exceptBindOk h with ⟨k2, _, h⟩
  rcases exceptBindOk h with ⟨f1, _, h⟩
  rcases exceptBindOk h with ⟨f2, _, h⟩
  rcases exceptBindOk h with ⟨v1, _, h⟩
  rcases exceptBindOk h with ⟨v2, _, h⟩
  rcases exceptBindOk h with ⟨c1, _, h⟩
  rcases exceptBindOk h with ⟨c2, _, h⟩
  injection h with h
  subst h
  exact ⟨rfl, rfl, rfl, rfl, rfl, rfl, rfl⟩

/-- C10 witness: the passthrough theorem at a concrete extracted dashboard
carrying all six frame fields. -/
theorem clean_unified_passthrough_fields_witness :
    dGet (okOrEmpty (cleanUnifiedDashboardData defaultCfg
        [("html_text", .vStr "h"), ("error", .vStr "e"), ("source", .vStr "powerbi"),
         ("auth_type", .vStr "private"), ("drill_state", .vDict [("v", .vList [.vStr "L1"])]),
         ("layout", .vDict [("w", .vNum 3)])])) "html_text" .vNone
      = dGet [("html_text", .vStr "h"), ("error", .vStr "e"), ("source", .vStr "powerbi"),
              ("auth_type", .vStr "private"), ("drill_state", .vDict [("v", .vList [.vStr "L1"])]),
              ("layout", .vDict [("w", .vNum 3)])] "html_text" (.vStr "")
    ∧ dGet (okOrEmpty (cleanUnifiedDashboardData defaultCfg
        [("html_text", .vStr "h"), ("error", .vStr "e"), ("source", .vStr "powerbi"),
         ("auth_type", .vStr "private"), ("drill_state", .vDict [("v", .vList [.vStr "L1"])]),
         ("layout", .vDict [("w", .vNum 3)])])) "drill_state" .vNone
      = dGet [("html_text", .vStr "h"), ("error", .vStr "e"), ("source", .vStr "powerbi"),
              ("auth_type", .vStr "private"), ("drill_state", .vDict [("v", .vList [.vStr "L1"])]),
              ("layout", .vDict [("w", .vNum 3)])] "drill_state" (.vDict []) :=
  ⟨(clean_unified_passthrough_fields defaultCfg
      [("html_text", .vStr "h"), ("error", .vStr "e"), ("source", .vStr "powerbi"),
       ("auth_type", .vStr "private"), ("drill_state", .vDict [("v", .vList [.vStr "L1"])]),
       ("layout", .vDict [("w", .vNum 3)])]
      (okOrEmpty (cleanUnifiedDashboardData defaultCfg
        [("html_text", .vStr "h"), ("error", .vStr "e"), ("source", .vStr "powerbi"),
         ("auth_type", .vStr "private"), ("drill_state", .vDict [("v", .vList [.vStr "L1"])]),
         ("layout", .vDict [("w", .vNum 3)])])) rfl).2.1,
   (clean_unified_passthrough_fields defaultCfg
      [("html_text", .vStr "h"), ("error", .vStr "e"), ("source", .vStr "powerbi"),
       ("auth_type", .vStr "private"), ("drill_state", .vDict [("v", .vList [.vStr "L1"])]),
       ("layout", .vDict [("w", .vNum 3)])]
      (okOrEmpty (cleanUnifiedDashboardData defaultCfg
        [("html_text", .vStr "h"), ("error", .vStr "e"), ("source", .vStr "powerbi"),
         ("auth_type", .vStr "private"), ("drill_state", .vDict [("v", .vList [.vStr "L1"])]),
         ("layout", .vDict [("w", .vNum 3)])])) rfl).2.2.2.2.2.1⟩

end BIDash
